import Mathlib

/-!
Verification development for the xapi-statement-builder pattern/template
engine (`src/builder.js`).

The pattern matcher `PatternRegistration._matches(statements, element)`
works on an id-indexed registry of pattern definitions: `element` is an id
string, and an id that is not a key of the `patterns` map is a template
leaf.  For an acyclic registry this is exactly a grammar tree, which we
embed as the inductive type `Pattern` below (the spec's closed
tagged-variant reading of the same data).

JavaScript runtime exceptions matter here: `_matches` contains two
expressions that throw `TypeError` at runtime (reading `.length` of the
absent `statements` field of a result object in the alternates branch, and
array-destructuring the plain result object in the optional branch).  We
embed a thrown `TypeError` as `Option.none`; a normal return value is
`some result`.
-/

namespace XapiStatementBuilder

/-- Mirrors `const [SUCCESS, PARTIAL, FAILURE] = [2,1,0]` in `builder.js`. -/
inductive MatchKind where
  | failure
  | part
  | success
deriving DecidableEq, Repr

/-- A `{success, remaining}` result object as returned by `_matches`. -/
structure MatchResult where
  success : MatchKind
  remaining : List String
deriving DecidableEq, Repr

/-- The grammar tree formed by a pattern id together with the `patterns`
registry: ids absent from the registry are template leaves, and each
pattern definition carries exactly one of the keys `sequence`,
`alternates`, `oneOrMore`, `zeroOrMore`, `optional`. -/
inductive Pattern where
  | leaf (templateId : String)
  | sequence (children : List Pattern)
  | alternates (children : List Pattern)
  | oneOrMore (child : Pattern)
  | zeroOrMore (child : Pattern)
  | optional (child : Pattern)
deriving Repr

mutual

/-- Embedding of `PatternRegistration._matches(statements, element)`.
`Option.none` models a thrown `TypeError`. -/
def _matches (statements : List String) (element : Pattern) : Option MatchResult :=
  match element with
  | .leaf template =>
    match statements with
    | [] => some ⟨.part, []⟩
    | next :: remaining =>
      if next = template then some ⟨.success, remaining⟩
      else some ⟨.failure, next :: remaining⟩
  | .sequence children => matchSequence statements statements children
  | .alternates children => matchAlternates statements children .failure statements
  | .oneOrMore child => matchOneOrMore child .failure statements statements
  | .zeroOrMore child => matchZeroOrMore child statements
  | .optional child =>
    if statements.length = 0 then some ⟨.success, []⟩
    else
      match _matches statements child with
      | Option.none => Option.none
      | some _ =>
        -- the source array-destructures the returned object:
        -- `let [success, remaining] = this._matches(...)`; a plain object
        -- is not iterable, so this throws TypeError
        Option.none
termination_by (sizeOf element, statements.length + 2)

/-- The `pattern.has('sequence')` loop of `_matches`: `statements` is the
original input (returned as the remainder of any failure), `remaining` is
the loop variable. -/
def matchSequence (statements remaining : List String) (children : List Pattern) :
    Option MatchResult :=
  match children with
  | [] => some ⟨.success, remaining⟩
  | next :: rest =>
    match _matches remaining next with
    | Option.none => Option.none
    | some r =>
      match r.success with
      | .failure => some ⟨.failure, statements⟩
      | .part => some ⟨.part, []⟩
      | .success => matchSequence statements r.remaining rest
termination_by (sizeOf children, 0)

/-- The `pattern.has('alternates')` loop of `_matches`, with accumulator
variables `success` and `remaining` (initially `FAILURE` and the input).
When a child match succeeds, the source reads `maybe.statements.length`,
but `_matches` results only carry `success` and `remaining`, so
`maybe.statements` is `undefined` and the access throws TypeError. -/
def matchAlternates (statements : List String) (children : List Pattern)
    (succ : MatchKind) (remaining : List String) : Option MatchResult :=
  match children with
  | [] =>
    if succ = .part then some ⟨.part, []⟩
    else some ⟨succ, remaining⟩
  | next :: rest =>
    match _matches statements next with
    | Option.none => Option.none
    | some maybe =>
      if maybe.success = .success then
        Option.none
      else if maybe.success = .part ∧ succ = .failure then
        matchAlternates statements rest .part remaining
      else
        matchAlternates statements rest succ remaining
termination_by (sizeOf children, 0)
decreasing_by
  all_goals simp_wf
  all_goals omega

/-- The `pattern.has('oneOrMore')` loop of `_matches`.  Note that the loop
variable `remaining` is initialised to the input and never reassigned: the
child result is bound to `maybe`, not destructured into
`{success, remaining}`.  Consequently the bottom-of-loop check
`remaining.length === last_statements.length` compares two copies of the
input on the first iteration and the loop always returns there. -/
def matchOneOrMore (child : Pattern) (succ : MatchKind)
    (remaining last_statements : List String) : Option MatchResult :=
  match _matches last_statements child with
  | Option.none => Option.none
  | some maybe =>
    if maybe.success = .success then
      if h : remaining.length = last_statements.length then
        some ⟨.success, remaining⟩
      else
        matchOneOrMore child .success remaining remaining
    else if succ = .failure ∧ maybe.success = .part then
      some ⟨.part, []⟩
    else if maybe.success = .part ∧ 0 < last_statements.length then
      some ⟨.part, last_statements⟩
    else
      some ⟨succ, last_statements⟩
termination_by
  (1 + sizeOf child, if remaining.length = last_statements.length then 0 else 1)
decreasing_by
  · exact Prod.Lex.left _ _ (by omega)
  · exact Prod.Lex.right _ (by simp [h])

/-- The `pattern.has('zeroOrMore')` loop of `_matches`.  Unlike the
oneOrMore branch, each iteration destructures the child result, so the
loop genuinely consumes.  The final `Option.none` branch is unreachable
(remainders never grow); in the source the loop would simply not
terminate in that impossible case. -/
def matchZeroOrMore (child : Pattern) (last_statements : List String) :
    Option MatchResult :=
  match _matches last_statements child with
  | Option.none => Option.none
  | some r =>
    if r.success = .failure then
      some ⟨.success, last_statements⟩
    else if r.success = .part ∧ 0 < r.remaining.length then
      some ⟨.part, r.remaining⟩
    else if r.remaining.length = last_statements.length then
      some ⟨.success, r.remaining⟩
    else if h : r.remaining.length < last_statements.length then
      matchZeroOrMore child r.remaining
    else
      Option.none
termination_by (1 + sizeOf child, last_statements.length)
decreasing_by
  · exact Prod.Lex.left _ _ (by omega)
  · exact Prod.Lex.right _ (by omega)

end

/-- Embedding of `PatternRegistration._sequencePossible(sequence, pattern)`:
`SUCCESS` accepts only with an empty remainder, `PARTIAL` accepts,
`FAILURE` rejects.  A `TypeError` thrown by `_matches` propagates
(`Option.none`). -/
def _sequencePossible (sequence : List String) (pattern : Pattern) : Option Bool :=
  match _matches sequence pattern with
  | Option.none => Option.none
  | some r =>
    match r.success with
    | .success => some (r.remaining.length == 0)
    | .part => some true
    | .failure => some false

/-- The Match State carried by a `PatternRegistration` builder: the bound
pattern (already resolved through the registry) and the mutable
`templates_so_far` array. -/
structure PatternRegistration where
  profile_version : String
  pattern : Pattern
  templates_so_far : List String

/-- Embedding of `PatternRegistration._checkNextMatch(template)`: extend
the recorded sequence with the proposed template id and test
`_sequencePossible`; throw if the extended sequence is impossible.  A
propagating `TypeError` from the matcher is a distinct error. -/
def _checkNextMatch (reg : PatternRegistration) (template : String) :
    Except String Unit :=
  match _sequencePossible (reg.templates_so_far ++ [template]) reg.pattern with
  | Option.none => Except.error "TypeError"
  | some true => Except.ok ()
  | some false =>
    Except.error "That template is not allowed next for the pattern"

/-- Embedding of `PatternRegistration.recordTemplate(template)`: check the
extension, then push the id onto `templates_so_far`.  The source mutates
the array in place after `_checkNextMatch` returns; a throw happens before
the push, so a rejected append leaves the state untouched, which the
functional embedding renders by returning the updated state only on
acceptance. -/
def recordTemplate (reg : PatternRegistration) (templateId : String) :
    Except String PatternRegistration :=
  match _checkNextMatch reg templateId with
  | Except.error e => Except.error e
  | Except.ok _ =>
    Except.ok { reg with templates_so_far := reg.templates_so_far ++ [templateId] }

example : _matches ["a"] (.leaf "a") = some ⟨.success, []⟩ := by
  simp [_matches]

example : _matches [] (.leaf "a") = some ⟨.part, []⟩ := by
  simp [_matches]

example : _matches ["b"] (.leaf "a") = some ⟨.failure, ["b"]⟩ := by
  simp [_matches]

example :
    _matches ["a", "b"] (.sequence [.leaf "a", .leaf "b"]) = some ⟨.success, []⟩ := by
  simp [_matches, matchSequence]

example :
    _matches ["a"] (.sequence [.leaf "a", .leaf "b"]) = some ⟨.part, []⟩ := by
  simp [_matches, matchSequence]

example :
    _matches ["b"] (.sequence [.leaf "a", .leaf "b"]) = some ⟨.failure, ["b"]⟩ := by
  simp [_matches, matchSequence]

example :
    _matches ["a", "b"] (.alternates [.leaf "a", .sequence [.leaf "a", .leaf "b"]]) =
      Option.none := by
  simp [_matches, matchSequence, matchAlternates]

example :
    _matches ["a", "a"] (.oneOrMore (.leaf "a")) = some ⟨.success, ["a", "a"]⟩ := by
  simp [_matches, matchOneOrMore]

example : _matches [] (.oneOrMore (.leaf "a")) = some ⟨.part, []⟩ := by
  simp [_matches, matchOneOrMore]

example : _matches ["b"] (.oneOrMore (.leaf "a")) = some ⟨.failure, ["b"]⟩ := by
  simp [_matches, matchOneOrMore]

example : _matches [] (.zeroOrMore (.leaf "a")) = some ⟨.success, []⟩ := by
  simp [_matches, matchZeroOrMore]

example : _matches ["a", "a"] (.zeroOrMore (.leaf "a")) = some ⟨.success, []⟩ := by
  simp [_matches, matchZeroOrMore]

example :
    _matches ["a", "a", "b"] (.zeroOrMore (.leaf "a")) = some ⟨.success, ["b"]⟩ := by
  simp [_matches, matchZeroOrMore]

/-- The `statements` argument of `matchSequence` only feeds the remainder
reported on failure: runs from different originals agree up to that
remainder. -/
theorem matchSequence_original (children : List Pattern) :
    ∀ (a b remaining : List String),
      matchSequence a remaining children =
        (match matchSequence b remaining children with
         | some ⟨.failure, _⟩ => some ⟨.failure, a⟩
         | other => other) := by
  induction children with
  | nil => intro a b remaining; simp [matchSequence]
  | cons next rest ih =>
    intro a b remaining
    simp only [matchSequence]
    cases hm : _matches remaining next with
    | none => simp
    | some r =>
      obtain ⟨succ, rem⟩ := r
      cases succ <;> simp [ih a b rem]

/-- C7: the sequence branch folds children left to right, each consuming
from the previous child's remainder; a child `Failure` makes the whole
match `Failure` with the original input as remainder, a child `Partial`
short-circuits to `Partial` with empty remainder, and when every child
succeeds the result is `Success` with the final remainder. -/
theorem sequence_fold_left_to_right :
    (∀ s : List String, _matches s (.sequence []) = some ⟨.success, s⟩) ∧
    (∀ (s : List String) (c : Pattern) (rest : List Pattern),
      _matches s (.sequence (c :: rest)) =
        (match _matches s c with
         | Option.none => Option.none
         | some ⟨.failure, _⟩ => some ⟨.failure, s⟩
         | some ⟨.part, _⟩ => some ⟨.part, []⟩
         | some ⟨.success, r⟩ =>
           match _matches r (.sequence rest) with
           | some ⟨.failure, _⟩ => some ⟨.failure, s⟩
           | other => other)) := by
  constructor
  · intro s
    simp [_matches, matchSequence]
  · intro s c rest
    simp only [_matches, matchSequence]
    cases hm : _matches s c with
    | none => simp
    | some r =>
      obtain ⟨succ, rem⟩ := r
      cases succ <;> simp [matchSequence_original rest s rem rem]

/-- The zeroOrMore loop can only ever report `Success` or `Partial` (or
propagate a thrown TypeError): no branch returns `FAILURE`. -/
theorem matchZeroOrMore_ne_failure (child : Pattern) :
    ∀ (last r : List String), matchZeroOrMore child last ≠ some ⟨.failure, r⟩ := by
  have H : ∀ (n : ℕ) (last : List String), last.length < n →
      ∀ r, matchZeroOrMore child last ≠ some ⟨.failure, r⟩ := by
    intro n
    induction n with
    | zero => intro last hlen; omega
    | succ n ih =>
      intro last hlen r
      rw [matchZeroOrMore]
      cases hm : _matches last child with
      | none => simp
      | some res =>
        simp only
        split
        · simp
        · split
          · simp
          · split
            · simp
            · split
              · exact ih res.remaining (by omega) r
              · simp
  intro last r
  exact H (last.length + 1) last (by omega) r

/-- C8: `ZeroOrMore(Leaf "a")` on `[]`, `["a","a"]` and `["a","a","b"]`
behaves as specified; a first-attempt child `Failure` yields `Success`
with the original sequence as remainder; and zeroOrMore never yields
`Failure`. -/
theorem zeroOrMore_spec :
    _matches [] (.zeroOrMore (.leaf "a")) = some ⟨.success, []⟩ ∧
    _matches ["a", "a"] (.zeroOrMore (.leaf "a")) = some ⟨.success, []⟩ ∧
    _matches ["a", "a", "b"] (.zeroOrMore (.leaf "a")) = some ⟨.success, ["b"]⟩ ∧
    (∀ (s : List String) (child : Pattern) (r : List String),
      _matches s child = some ⟨.failure, r⟩ →
      _matches s (.zeroOrMore child) = some ⟨.success, s⟩) ∧
    (∀ (s : List String) (child : Pattern) (r : List String),
      _matches s (.zeroOrMore child) ≠ some ⟨.failure, r⟩) := by
  refine ⟨by simp [_matches, matchZeroOrMore], by simp [_matches, matchZeroOrMore],
    by simp [_matches, matchZeroOrMore], ?_, ?_⟩
  · intro s child r h
    rw [show _matches s (.zeroOrMore child) = matchZeroOrMore child s from by
      rw [_matches]]
    rw [matchZeroOrMore, h]
    simp
  · intro s child r
    rw [show _matches s (.zeroOrMore child) = matchZeroOrMore child s from by
      rw [_matches]]
    exact matchZeroOrMore_ne_failure child s r

/-- C8 witness: the first-attempt-failure clause and the never-failure
clause of `zeroOrMore_spec` at the concrete input `["b"]` against
`ZeroOrMore(Leaf "a")`. -/
theorem zeroOrMore_spec_witness :
    _matches ["b"] (.leaf "a") = some ⟨.failure, ["b"]⟩ ∧
    _matches ["b"] (.zeroOrMore (.leaf "a")) = some ⟨.success, ["b"]⟩ ∧
    _matches ["b"] (.zeroOrMore (.leaf "a")) ≠ some ⟨.failure, []⟩ := by
  refine ⟨by simp [_matches], ?_, ?_⟩
  · exact zeroOrMore_spec.2.2.2.1 ["b"] (.leaf "a") ["b"] (by simp [_matches])
  · exact zeroOrMore_spec.2.2.2.2 ["b"] (.leaf "a") []

/-- C1: whenever a child of an alternates pattern matches with `SUCCESS`,
the source reads `maybe.statements.length` from a result object that has
no `statements` field, so the match throws a TypeError instead of
returning `Success` with the minimal remainder; in particular the spec's
own example input crashes. -/
theorem alternates_success_typeerror :
    _matches ["a", "b"] (.alternates [.leaf "a", .sequence [.leaf "a", .leaf "b"]]) =
      Option.none := by
  simp [_matches, matchSequence, matchAlternates]

/-- C2: the oneOrMore loop never updates its `remaining` variable from the
child result, so after one successful child match it immediately returns
`Success` with the untouched input as remainder: repetition never consumes
anything, contradicting greedy repetition. -/
theorem oneOrMore_does_not_consume :
    _matches ["a", "a"] (.oneOrMore (.leaf "a")) = some ⟨.success, ["a", "a"]⟩ ∧
    _matches ["a", "a", "a"] (.oneOrMore (.leaf "a")) =
      some ⟨.success, ["a", "a", "a"]⟩ := by
  constructor <;> simp [_matches, matchOneOrMore]

/-- C5: the sequence-extension check matches the current recorded sequence
extended with the proposed template id against the pattern; it accepts
exactly on `Success` with empty remainder or `Partial`, and rejects with a
usage error exactly on `Failure` or `Success` with a non-empty
remainder. -/
theorem checkNextMatch_spec :
    ∀ (reg : PatternRegistration) (templateId : String),
      (_checkNextMatch reg templateId = Except.ok () ↔
        (_matches (reg.templates_so_far ++ [templateId]) reg.pattern =
            some ⟨.success, []⟩ ∨
          ∃ r, _matches (reg.templates_so_far ++ [templateId]) reg.pattern =
            some ⟨.part, r⟩)) ∧
      (_checkNextMatch reg templateId =
          Except.error "That template is not allowed next for the pattern" ↔
        ((∃ r, _matches (reg.templates_so_far ++ [templateId]) reg.pattern =
            some ⟨.failure, r⟩) ∨
          (∃ r, _matches (reg.templates_so_far ++ [templateId]) reg.pattern =
            some ⟨.success, r⟩ ∧ r ≠ []))) := by
  intro reg templateId
  unfold _checkNextMatch _sequencePossible
  cases hm : _matches (reg.templates_so_far ++ [templateId]) reg.pattern with
  | none => simp
  | some r =>
    obtain ⟨succ, rem⟩ := r
    cases succ with
    | failure => simp
    | part => simp
    | success =>
      cases rem with
      | nil => simp
      | cons x xs => simp

/-- C5 witness: `checkNextMatch_spec` applied at concrete accepted and
rejected extensions of an empty Match State over `Leaf "a"`. -/
theorem checkNextMatch_spec_witness :
    _checkNextMatch ⟨"v", .leaf "a", []⟩ "a" = Except.ok () ∧
    _checkNextMatch ⟨"v", .leaf "a", []⟩ "b" =
      Except.error "That template is not allowed next for the pattern" := by
  constructor
  · exact (checkNextMatch_spec ⟨"v", .leaf "a", []⟩ "a").1.mpr
      (Or.inl (by simp [_matches]))
  · exact (checkNextMatch_spec ⟨"v", .leaf "a", []⟩ "b").2.mpr
      (Or.inl ⟨["b"], by simp [_matches]⟩)

/-- C6: a rejected append surfaces the error (leaving the Match State
unchanged, which the functional embedding renders by producing no new
state), and an accepted append appends the template id exactly once at the
end of `templates_so_far`, changing nothing else. -/
theorem recordTemplate_spec :
    ∀ (reg : PatternRegistration) (templateId : String),
      (∀ e, _checkNextMatch reg templateId = Except.error e →
        recordTemplate reg templateId = Except.error e) ∧
      (∀ reg', recordTemplate reg templateId = Except.ok reg' →
        reg'.templates_so_far = reg.templates_so_far ++ [templateId] ∧
        reg'.pattern = reg.pattern ∧
        reg'.profile_version = reg.profile_version) := by
  intro reg templateId
  constructor
  · intro e he
    simp [recordTemplate, he]
  · intro reg' h
    unfold recordTemplate at h
    cases hc : _checkNextMatch reg templateId with
    | error e => rw [hc] at h; exact absurd h (by simp)
    | ok u =>
      rw [hc] at h
      simp only [Except.ok.injEq] at h
      subst h
      exact ⟨rfl, rfl, rfl⟩

/-- C6 witness: `recordTemplate_spec` applied to a concrete accepted
append and a concrete rejected append. -/
theorem recordTemplate_spec_witness :
    ((PatternRegistration.mk "v" (.leaf "a") ["a"]).templates_so_far =
        [] ++ ["a"] ∧
      (PatternRegistration.mk "v" (.leaf "a") ["a"]).pattern =
        (PatternRegistration.mk "v" (.leaf "a") []).pattern ∧
      (PatternRegistration.mk "v" (.leaf "a") ["a"]).profile_version =
        (PatternRegistration.mk "v" (.leaf "a") []).profile_version) ∧
    recordTemplate ⟨"v", .leaf "a", []⟩ "b" =
      Except.error "That template is not allowed next for the pattern" := by
  constructor
  · exact (recordTemplate_spec ⟨"v", .leaf "a", []⟩ "a").2 ⟨"v", .leaf "a", ["a"]⟩
      (by simp [recordTemplate, _checkNextMatch, _sequencePossible, _matches])
  · exact (recordTemplate_spec ⟨"v", .leaf "a", []⟩ "b").1 _
      (by simp [_checkNextMatch, _sequencePossible, _matches])

/-- A JSON value as handled by the rule checks.  The jsonpath collaborator
is kept abstract (a `query` function parameter), so leaf values suffice
here; nested structure lives behind the query. -/
inductive JsVal where
  | str (s : String)
  | num (n : Int)
  | bool (b : Bool)
  | null
deriving DecidableEq, Repr

/-- Display form of a value inside an error message. -/
def JsVal.display : JsVal → String
  | .str s => s
  | .num n => toString n
  | .bool b => toString b
  | .null => "null"

/-- Lodash `_.join(list)`: comma-joined. -/
def ljoin (xs : List JsVal) : String :=
  String.intercalate "," (xs.map JsVal.display)

/-- Character-list worker for `lsplit`. -/
def splitOnChar (sep : Char) : List Char → List (List Char)
  | [] => [[]]
  | c :: rest =>
    let tail := splitOnChar sep rest
    if c = sep then [] :: tail
    else
      match tail with
      | [] => [[c]]
      | t :: ts => (c :: t) :: ts

/-- Lodash `_.split(string, separator)`, specialised to the
single-character separator the source always uses. -/
def lsplit (s : String) (sep : Char) : List String :=
  (splitOnChar sep s.data).map (fun cs => String.mk cs)

/-- Lodash `_.intersection(a, b)`: unique values of `a` also in `b`. -/
def lintersection {α : Type} [DecidableEq α] (a b : List α) : List α :=
  (a.filter (fun x => x ∈ b)).dedup

/-- Lodash `_.difference(a, b)`: values of `a` not in `b`. -/
def ldifference {α : Type} [DecidableEq α] (a b : List α) : List α :=
  a.filter (fun x => x ∉ b)

/-- A template Rule object: `location` and optional `selector` are
path-selector expression strings, `presence` is one of included, excluded
or recommended when present, and `any` / `all` / `none` are optional value
sets. -/
structure Rule where
  location : String
  selector : Option String := Option.none
  presence : Option String := Option.none
  any : Option (List JsVal) := Option.none
  all : Option (List JsVal) := Option.none
  none : Option (List JsVal) := Option.none
deriving Repr

/-- `TemplateBuilder._multipath(js, expressions)`: concatenate the
`jsonpath.query` results of each expression, in order.  `query` is the
black-box jsonpath collaborator. -/
def _multipath (query : JsVal → String → List JsVal) (js : JsVal)
    (expressions : List String) : List JsVal :=
  (expressions.map (fun expression => query js expression)).flatten

/-- `TemplateBuilder._ruleDescription(rule)`. -/
def _ruleDescription (rule : Rule) : String :=
  match rule.selector with
  | some sel => rule.location ++ " (each refined with " ++ sel ++ ")"
  | Option.none => rule.location

/-- Throw helper: each `this._error(message)` call site in the source is a
conditional throw of `Error("For template " + template.id + ", " + message)`. -/
def errIf (cond : Bool) (message : String) : Except String Unit :=
  if cond then Except.error message else Except.ok ()

/-- Embedding of `TemplateBuilder._checkRule(js, rule)`: candidate values
from the pipe-split location expressions, optional per-value selector
refinement with `has_unmatchable` tracking, then the presence checks and
the values-based checks.  Note the `all` check of the source tests
`_.difference(rule.all, matchables)`: values of `all` missing from the
candidates, not candidate values outside `all`. -/
def _checkRule (query : JsVal → String → List JsVal) (tid : String)
    (js : JsVal) (rule : Rule) : Except String Unit := do
  let description := _ruleDescription rule
  let locations := lsplit rule.location '|'
  let values := _multipath query js locations
  let selRes :=
    match rule.selector with
    | some sel =>
      let selectors := lsplit sel '|'
      let selected := values.map (fun value => _multipath query value selectors)
      (!(selected.filter List.isEmpty).isEmpty, selected.flatten)
    | Option.none => (false, values)
  let has_unmatchable := selRes.1
  let matchables := selRes.2
  if rule.presence = some "included" then
    errIf matchables.isEmpty ("For template " ++ tid ++ ", " ++ description ++
      " must include at least one value, but does not")
    errIf has_unmatchable ("For template " ++ tid ++ ", " ++ description ++
      " must not include any unmatchable values, but does")
  else if rule.presence = some "excluded" then
    errIf (!matchables.isEmpty) ("For template " ++ tid ++ ", " ++ description ++
      " must not include any values, but does")
  if rule.presence = Option.none ∨ rule.presence = some "included" ∨
      (rule.presence = some "recommended" ∧ ¬ matchables.isEmpty) then
    match rule.any with
    | some anyList =>
      errIf (lintersection anyList matchables).isEmpty
        ("For template " ++ tid ++ ", " ++ description ++
          " must have at least one value from " ++ ljoin anyList)
    | Option.none => pure ()
    match rule.all with
    | some allList =>
      errIf (!(ldifference allList matchables).isEmpty)
        ("For template " ++ tid ++ ", " ++ description ++
          " must not include any values that are not from " ++ ljoin allList)
      errIf has_unmatchable ("For template " ++ tid ++ ", " ++ description ++
        " must not include any unmatchable values, but does")
    | Option.none => pure ()
    match rule.none with
    | some noneList =>
      errIf (!(lintersection noneList matchables).isEmpty)
        ("For template " ++ tid ++ ", " ++ description ++
          " must not include any of " ++ ljoin noneList ++ ", but does")
    | Option.none => pure ()

example :
    _checkRule (fun _ _ => []) "t" JsVal.null
      { location := "$.result.success", presence := some "included" } =
      Except.error "For template t, $.result.success must include at least one value, but does not" := by
  rfl

example :
    _checkRule (fun _ _ => [JsVal.str "ok"]) "t" JsVal.null
      { location := "$.result.success", presence := some "included" } =
      Except.ok () := by
  rfl

/-- Sequencing a thrown error short-circuits the rest of `_checkRule`. -/
theorem exceptBindError {α β : Type} (e : String) (f : α → Except String β) :
    (Except.error e : Except String α) >>= f = Except.error e := rfl

/-- Sequencing a passed check continues with the rest of `_checkRule`. -/
theorem exceptBindOk {α β : Type} (a : α) (f : α → Except String β) :
    (Except.ok a : Except String α) >>= f = f a := rfl

/-- C3: the `all` check of `_checkRule` is reversed.  It tests
`_.difference(rule.all, matchables)` (values of `all` missing from the
candidate set) although its own error message promises to reject
candidate values outside `all`: a candidate set `["x","z"]` against
`all: ["x"]` raises nothing even though `"z"` is not in `all`, while a
candidate set `["x"]` against `all: ["x","y"]` raises even though every
candidate is in `all`. -/
theorem allCheck_reversed :
    _checkRule (fun _ _ => [JsVal.str "x", JsVal.str "z"])
        "http://template.example.com" JsVal.null
        { location := "$.object.definition.type", all := some [JsVal.str "x"] } =
      Except.ok () ∧
    (∃ msg, _checkRule (fun _ _ => [JsVal.str "x"])
        "http://template.example.com" JsVal.null
        { location := "$.object.definition.type",
          all := some [JsVal.str "x", JsVal.str "y"] } =
      Except.error msg) := by
  exact ⟨rfl, ⟨_, rfl⟩⟩

/-- C9: for a rule with `presence: included`, a location matching zero
values always raises (the candidate-set-empty error), and the same rule
with no selector and no `any` / `all` / `none` sets never raises when the
location matches at least one value. -/
theorem includedRule_presence :
    ∀ (query : JsVal → String → List JsVal) (tid : String) (js : JsVal)
      (rule : Rule),
      rule.presence = some "included" →
      ((_multipath query js (lsplit rule.location '|') = [] →
          _checkRule query tid js rule =
            Except.error ("For template " ++ tid ++ ", " ++
              _ruleDescription rule ++
              " must include at least one value, but does not")) ∧
        (rule.selector = Option.none → rule.any = Option.none →
          rule.all = Option.none → rule.none = Option.none →
          _multipath query js (lsplit rule.location '|') ≠ [] →
          _checkRule query tid js rule = Except.ok ())) := by
  intro query tid js rule hp
  constructor
  · intro hv
    simp only [_checkRule]
    rw [hv, hp]
    cases hsel : rule.selector with
    | none => simp [errIf, exceptBindError]
    | some sel => simp [errIf, exceptBindError]
  · intro hsel hany hall hnone hv
    simp only [_checkRule]
    rw [hp, hsel, hany, hall, hnone]
    cases hval : _multipath query js (lsplit rule.location '|') with
    | nil => exact absurd hval hv
    | cons x xs => simp [errIf, exceptBindOk]

/-- C9 witness: `includedRule_presence` applied to a concrete empty-match
document (raises) and a concrete non-empty-match document (passes). -/
theorem includedRule_presence_witness :
    _checkRule (fun _ _ => []) "http://template.example.com" JsVal.null
        { location := "$.result.success", presence := some "included" } =
      Except.error ("For template http://template.example.com, " ++
        "$.result.success must include at least one value, but does not") ∧
    _checkRule (fun _ _ => [JsVal.str "ok"]) "http://template.example.com"
        JsVal.null
        { location := "$.result.success", presence := some "included" } =
      Except.ok () := by
  constructor
  · have h := (includedRule_presence (fun _ _ => [])
      "http://template.example.com" JsVal.null
      { location := "$.result.success", presence := some "included" } rfl).1 rfl
    exact h
  · exact (includedRule_presence (fun _ _ => [JsVal.str "ok"])
      "http://template.example.com" JsVal.null
      { location := "$.result.success", presence := some "included" } rfl).2
      rfl rfl rfl rfl (by decide)

/-- JS `capitalize(s)`: upper-case the first character. -/
def capitalize (s : String) : String := (s.take 1).toUpper ++ s.drop 1

/-- A profile StatementTemplate object, restricted to the determining
properties read by the context activity type loop of
`TemplateBuilder.validate`.  The xAPI Profile schema defines the four
relation-specific keys below. -/
structure Template where
  id : String
  contextParentActivityType : Option (List String) := Option.none
  contextGroupingActivityType : Option (List String) := Option.none
  contextCategoryActivityType : Option (List String) := Option.none
  contextOtherActivityType : Option (List String) := Option.none
deriving Repr

/-- JS bracket property access `template[key]` for the context activity
type keys; any other key is absent (`undefined`). -/
def Template.getProp (t : Template) (key : String) : Option (List String) :=
  if key = "contextParentActivityType" then t.contextParentActivityType
  else if key = "contextGroupingActivityType" then t.contextGroupingActivityType
  else if key = "contextCategoryActivityType" then t.contextCategoryActivityType
  else if key = "contextOtherActivityType" then t.contextOtherActivityType
  else Option.none

/-- One entry of a `contextActivities` list, carrying its
`definition.type` when present. -/
structure ActivityEntry where
  definitionType : Option String
deriving DecidableEq, Repr

/-- The slice of a finalized statement document read by the context
activity type loop: the four `context.contextActivities.<relation>`
lists. -/
structure ContextActivitiesDoc where
  parent : List ActivityEntry := []
  grouping : List ActivityEntry := []
  category : List ActivityEntry := []
  other : List ActivityEntry := []
deriving Repr

/-- `_.get(js, path, [])` for the document paths the loop can mention. -/
def ContextActivitiesDoc.getPath (d : ContextActivitiesDoc) (path : String) :
    List ActivityEntry :=
  if path = "context.contextActivities.parent" then d.parent
  else if path = "context.contextActivities.grouping" then d.grouping
  else if path = "context.contextActivities.category" then d.category
  else if path = "context.contextActivities.other" then d.other
  else []

/-- Embedding of the context activity type loop of
`TemplateBuilder.validate`.  The source writes the template property key
and the document path with ordinary quoted strings instead of template
literals, so the dollar-brace placeholders are literal text: the property
lookup key is the literal string `context$\x7bcapitalized\x7dActivityType`
and the document path is the literal string
`context.contextActivities.$\x7bname\x7d`. -/
def contextActivityTypeChecks (t : Template) (js : ContextActivitiesDoc) :
    Except String Unit := do
  for name in ["parent", "category", "grouping", "other"] do
    let capitalized := capitalize name
    match t.getProp "context$\x7bcapitalized\x7dActivityType" with
    | some required =>
      let present := (js.getPath "context.contextActivities.$\x7bname\x7d").map
        (fun activity => activity.definitionType)
      let missing := required.filter (fun r => ¬ (some r) ∈ present)
      errIf (!missing.isEmpty)
        ("For template " ++ t.id ++ ", " ++ name ++
          " context activity types must include all of " ++
          String.intercalate "," missing)
    | Option.none =>
      pure ()

/-- C4: the context activity type checks are dead code.  The property key
is built with plain quotes instead of a template literal, so the loop
looks up the literal key `context$\x7bcapitalized\x7dActivityType`, which
no template has; the check therefore never raises — in particular not for
a template requiring a parent activity type against a document with no
context activities at all. -/
theorem contextActivityTypes_dead_code :
    contextActivityTypeChecks
        { id := "http://template.example.com",
          contextParentActivityType := some ["http://type.example.com"] }
        {} = Except.ok () ∧
    ∀ (t : Template) (js : ContextActivitiesDoc),
      contextActivityTypeChecks t js = Except.ok () := by
  constructor
  · rfl
  · intro t js
    rfl

/-- A builder document: the immutable map of a `StatementBuilder`, keyed
by field path (`getIn` / `setIn` address exact paths). -/
structure SBuilder where
  map : List String → Option JsVal

/-- `setIn(['map'] ++ path, value)` on a builder document. -/
def setPath (m : List String → Option JsVal) (path : List String) (v : JsVal) :
    List String → Option JsVal :=
  fun q => if q = path then some v else m q

/-- Immutable `map.deleteAll(keys)`: removes each listed top-level key
together with its subtree. -/
def deleteAllKeys (m : List String → Option JsVal) (keys : List String) :
    List String → Option JsVal :=
  fun q =>
    match q with
    | [] => m []
    | k :: _ => if k ∈ keys then Option.none else m q

/-- Embedding of `StatementBuilder.asSubStatement`: set the required
`objectType`, then delete the SubStatement-illegal properties `id`,
`timestamp`, `version` and `authority`; the result is wrapped as a
`SubStatementBuilder`. -/
def asSubStatement (b : SBuilder) : SBuilder :=
  { map := deleteAllKeys
      (setPath b.map ["objectType"] (JsVal.str "SubStatement"))
      ["id", "timestamp", "version", "authority"] }

namespace SubStatementBuilder

/-- `SubStatementBuilder.withId()`: always throws. -/
def withId (b : SBuilder) (uuid : String) : Except String SBuilder :=
  Except.error "That property not allowed in SubStatements"

/-- `SubStatementBuilder.withTimestamp()`: always throws. -/
def withTimestamp (b : SBuilder) (timestamp : String) : Except String SBuilder :=
  Except.error "That property not allowed in SubStatements"

/-- `SubStatementBuilder.withVersion()`: always throws. -/
def withVersion (b : SBuilder) (version : String) : Except String SBuilder :=
  Except.error "That property not allowed in SubStatements"

/-- `SubStatementBuilder.withAuthority()`: always throws. -/
def withAuthority (b : SBuilder) (agent : JsVal) : Except String SBuilder :=
  Except.error "That property not allowed in SubStatements"

/-- `SubStatementBuilder.withAgentMethod(location, method, args)`: throws
when the location targets `authority`, otherwise defers to the
`StatementBuilder` behaviour, which reads the value at the location,
applies the agent-builder method (the black-box `agentApply`), and sets
the result back. -/
def withAgentMethod (b : SBuilder) (location : List String)
    (agentApply : Option JsVal → JsVal) : Except String SBuilder :=
  if location.head? = some "authority" then
    Except.error "That property not allowed in SubStatements"
  else
    Except.ok { map := setPath b.map location (agentApply (b.map location)) }

end SubStatementBuilder

/-- C10: the builder returned by `asSubStatement` has
`objectType = "SubStatement"`, carries none of the keys `id`, `timestamp`,
`version`, `authority` (nor anything beneath them), and every attempt to
set one of those fields on it (including agent methods targeting the
`authority` location) throws instead of modifying the document. -/
theorem asSubStatement_spec :
    ∀ b : SBuilder,
      (asSubStatement b).map ["objectType"] = some (JsVal.str "SubStatement") ∧
      (∀ rest, (asSubStatement b).map ("id" :: rest) = Option.none) ∧
      (∀ rest, (asSubStatement b).map ("timestamp" :: rest) = Option.none) ∧
      (∀ rest, (asSubStatement b).map ("version" :: rest) = Option.none) ∧
      (∀ rest, (asSubStatement b).map ("authority" :: rest) = Option.none) ∧
      (∀ uuid, SubStatementBuilder.withId (asSubStatement b) uuid =
        Except.error "That property not allowed in SubStatements") ∧
      (∀ ts, SubStatementBuilder.withTimestamp (asSubStatement b) ts =
        Except.error "That property not allowed in SubStatements") ∧
      (∀ v, SubStatementBuilder.withVersion (asSubStatement b) v =
        Except.error "That property not allowed in SubStatements") ∧
      (∀ agent, SubStatementBuilder.withAuthority (asSubStatement b) agent =
        Except.error "That property not allowed in SubStatements") ∧
      (∀ (location : List String) (agentApply : Option JsVal → JsVal),
        location.head? = some "authority" →
        SubStatementBuilder.withAgentMethod (asSubStatement b) location
            agentApply =
          Except.error "That property not allowed in SubStatements") := by
  intro b
  refine ⟨by simp [asSubStatement, deleteAllKeys, setPath], ?_, ?_, ?_, ?_,
    fun _ => rfl, fun _ => rfl, fun _ => rfl, fun _ => rfl, ?_⟩
  · intro rest; simp [asSubStatement, deleteAllKeys]
  · intro rest; simp [asSubStatement, deleteAllKeys]
  · intro rest; simp [asSubStatement, deleteAllKeys]
  · intro rest; simp [asSubStatement, deleteAllKeys]
  · intro location agentApply hloc
    simp [SubStatementBuilder.withAgentMethod, hloc]

/-- C10 witness: `asSubStatement_spec` applied to the empty builder, with
the agent-method clause discharged at the concrete location
`["authority"]`. -/
theorem asSubStatement_spec_witness :
    (asSubStatement ⟨fun _ => Option.none⟩).map ["objectType"] =
      some (JsVal.str "SubStatement") ∧
    (asSubStatement ⟨fun _ => Option.none⟩).map ["id"] = Option.none ∧
    SubStatementBuilder.withAgentMethod (asSubStatement ⟨fun _ => Option.none⟩)
        ["authority"] (fun _ => JsVal.null) =
      Except.error "That property not allowed in SubStatements" := by
  refine ⟨(asSubStatement_spec ⟨fun _ => Option.none⟩).1,
    (asSubStatement_spec ⟨fun _ => Option.none⟩).2.1 [],
    (asSubStatement_spec ⟨fun _ => Option.none⟩).2.2.2.2.2.2.2.2.2
      ["authority"] (fun _ => JsVal.null) rfl⟩

end XapiStatementBuilder
